import Mathlib

/-!
Shallow embedding of the Spider security scanner core (scanner component):
the fixed check catalog, case-insensitive header lookup, per-page evaluation,
weighted scoring, letter grading, aggregation over crawled pages, and the
Markdown-export display path.

Conventions of the embedding:
- A JavaScript header object `Record<string, string>` becomes an association
  list `List (String × String)`; `Object.entries` iteration order is the list
  order (header names are never integer-like keys).
- A JavaScript value that may be `undefined` becomes an `Option`; JavaScript
  string falsiness (`!val` is true for `undefined` and for `""`) becomes
  `isFalsy : Option String → Bool`.
- `Math.round((earned / total) * 100)` is modelled exactly on naturals as
  `floor((2 * (100 * earned) + total) / (2 * total))`.  Over the reachable
  range (earned ≤ total ≤ 185, values bounded by 300) the double-precision
  evaluation of the source expression is within 1e-13 of the exact rational,
  and the exact rational is never closer than 1/(2·total) ≥ 1/600 to a
  half-integer unless it is one exactly, so the float rounds identically to
  the exact rational; ties cannot occur for positive weights as shown below.
- `lowerStr` (character-wise `Char.toLower`) stands for
  `String.prototype.toLowerCase`; the two agree on ASCII, which covers all
  header names and the catalog's comparisons.
-/

namespace SpiderScan

/-- Severity levels of the check catalog. -/
inductive Severity where
  | critical
  | high
  | medium
  | low
deriving DecidableEq, Repr

/-- Fixed severity weights: critical=30, high=20, medium=15, low=10
(the `weights` table in the scanner's `useMemo`). -/
def weight : Severity → Nat
  | .critical => 30
  | .high => 20
  | .medium => 15
  | .low => 10

/-- The result object each check function returns:
`{ pass: boolean; value?: string; detail?: string }`. -/
structure CheckOutcome where
  pass : Bool
  value : Option String
  detail : Option String
deriving DecidableEq, Repr

/-- Header maps: association lists standing for `Record<string, string>`
in `Object.entries` iteration order. -/
abbrev Headers : Type := List (String × String)

/-- JavaScript falsiness of a `string | undefined` value:
`undefined` and the empty string are falsy. -/
def isFalsy : Option String → Bool
  | none => true
  | some s => s.isEmpty

/-- `String.prototype.toLowerCase`, character by character (ASCII-correct,
which covers every comparison the catalog performs). -/
def lowerStr (s : String) : String :=
  String.mk (s.toList.map Char.toLower)

/-- `findHeader(headers, name)`: first entry whose key, lowercased, equals
the lowercased name; `undefined` (here `none`) when no key matches. -/
def findHeader : Headers → String → Option String
  | [], _ => none
  | (k, v) :: rest, name =>
      if lowerStr k = lowerStr name then some v else findHeader rest name

/-- Value of a digit run, most significant digit first (the semantics of
`parseInt` on a nonempty all-digit string). -/
def digitsToNat (ds : List Char) : Nat :=
  ds.foldl (fun n c => 10 * n + (c.toNat - 48)) 0

/-- One attempted match of the regex `max-age=(\d+)` anchored at the head of
the character list: the literal `max-age=` followed by at least one digit,
capturing the maximal digit run. -/
def matchMaxAgeAt (l : List Char) : Option Nat :=
  let pat := "max-age=".toList
  if pat.isPrefixOf l then
    let ds := (l.drop pat.length).takeWhile Char.isDigit
    if ds.isEmpty then none else some (digitsToNat ds)
  else none

/-- First match of `max-age=(\d+)` in the string, scanning left to right
(the semantics of `val.match(/max-age=(\d+)/)?.[1]`). -/
def findMaxAge : List Char → Option Nat
  | [] => none
  | c :: rest =>
      match matchMaxAgeAt (c :: rest) with
      | some n => some n
      | none => findMaxAge rest

/-- `parseInt(val.match(/max-age=(\d+)/)?.[1] || "0")`: the first captured
digit run's value, or 0 when the pattern does not match. -/
def hstsMaxAge (v : String) : Nat :=
  (findMaxAge v.toList).getD 0

/-- Bool test for `hay.includes(needle)`: `needle` occurs as a contiguous
substring of `hay`. -/
def containsSub : List Char → List Char → Bool
  | [], needle => needle.isEmpty
  | h :: t, needle => needle.isPrefixOf (h :: t) || containsSub t needle

/-- `val.slice(0, 80) + (val.length > 80 ? "..." : "")`. -/
def truncate80 (v : String) : String :=
  String.mk (v.toList.take 80) ++ (if 80 < v.length then "..." else "")

/-- The HTTPS check: unconditionally passing placeholder. -/
def httpsCheck (_hs : Headers) : CheckOutcome :=
  ⟨true, none, some "Checked via crawl URL"⟩

/-- The Strict-Transport-Security check. -/
def hstsCheck (hs : Headers) : CheckOutcome :=
  let val := findHeader hs "strict-transport-security"
  if isFalsy val then
    ⟨false, none, some "Header missing — browsers can connect over HTTP"⟩
  else
    let v := val.getD ""
    let maxAge := hstsMaxAge v
    if maxAge < 31536000 then
      ⟨true, some v, some ("max-age=" ++ toString maxAge ++ " (recommend >= 31536000)")⟩
    else
      ⟨true, some v, none⟩

/-- The Content-Security-Policy check. -/
def cspCheck (hs : Headers) : CheckOutcome :=
  let val := findHeader hs "content-security-policy"
  if isFalsy val then
    ⟨false, none, some "No CSP header — site is vulnerable to XSS injection"⟩
  else
    let v := val.getD ""
    let hasUnsafe := containsSub v.toList ("unsafe-inline".toList)
      || containsSub v.toList ("unsafe-eval".toList)
    ⟨true, some (truncate80 v),
      if hasUnsafe then some "Contains unsafe-inline or unsafe-eval directives" else none⟩

/-- The X-Frame-Options check. -/
def xfoCheck (hs : Headers) : CheckOutcome :=
  let val := findHeader hs "x-frame-options"
  if isFalsy val then
    ⟨false, none, some "Missing — page can be embedded in iframes (clickjacking risk)"⟩
  else
    ⟨true, some (val.getD ""), none⟩

/-- The X-Content-Type-Options check. -/
def xctoCheck (hs : Headers) : CheckOutcome :=
  let val := findHeader hs "x-content-type-options"
  if isFalsy val then
    ⟨false, none, some "Missing — browser may MIME-sniff responses"⟩
  else
    let v := val.getD ""
    ⟨lowerStr v == "nosniff", some v, none⟩

/-- The Referrer-Policy check. -/
def referrerCheck (hs : Headers) : CheckOutcome :=
  let val := findHeader hs "referrer-policy"
  if isFalsy val then
    ⟨false, none, some "Missing — full URL may leak in Referer header"⟩
  else
    ⟨true, some (val.getD ""), none⟩

/-- JavaScript `a || b` on `string | undefined` operands: falls through to
`b` when `a` is falsy. -/
def jsOr (a b : Option String) : Option String :=
  if isFalsy a then b else a

/-- The Permissions-Policy check, with fallback to the legacy
`feature-policy` header. -/
def permissionsCheck (hs : Headers) : CheckOutcome :=
  let val := jsOr (findHeader hs "permissions-policy") (findHeader hs "feature-policy")
  if isFalsy val then
    ⟨false, none, some "Missing — all browser features are allowed by default"⟩
  else
    ⟨true, some (truncate80 (val.getD "")), none⟩

/-- The X-XSS-Protection check. -/
def xssCheck (hs : Headers) : CheckOutcome :=
  let val := findHeader hs "x-xss-protection"
  if isFalsy val then
    ⟨false, none, some "Missing (note: modern browsers use CSP instead)"⟩
  else
    ⟨true, some (val.getD ""), none⟩

/-- The Cross-Origin-Opener-Policy check. -/
def coopCheck (hs : Headers) : CheckOutcome :=
  let val := findHeader hs "cross-origin-opener-policy"
  if isFalsy val then
    ⟨false, none, some "Missing — window can be referenced by cross-origin pages"⟩
  else
    ⟨true, some (val.getD ""), none⟩

/-- The Cross-Origin-Resource-Policy check. -/
def corpCheck (hs : Headers) : CheckOutcome :=
  let val := findHeader hs "cross-origin-resource-policy"
  if isFalsy val then
    ⟨false, none, some "Missing"⟩
  else
    ⟨true, some (val.getD ""), none⟩

/-- A catalog entry: `{ name, header, description, severity, check }`.
The check function takes the headers and the page markup (the markup is
ignored by every entry of the current catalog, as in the source). -/
structure SecurityCheck where
  name : String
  header : String
  description : String
  severity : Severity
  check : Headers → String → CheckOutcome

/-- The fixed 10-entry check catalog `CHECKS`, in source order. -/
def CHECKS : List SecurityCheck :=
  [ ⟨"HTTPS", "url", "Site uses HTTPS encryption", .critical,
      fun h _ => httpsCheck h⟩,
    ⟨"Strict-Transport-Security", "strict-transport-security",
      "Forces HTTPS connections via HSTS", .critical,
      fun h _ => hstsCheck h⟩,
    ⟨"Content-Security-Policy", "content-security-policy",
      "Mitigates XSS and injection attacks", .critical,
      fun h _ => cspCheck h⟩,
    ⟨"X-Frame-Options", "x-frame-options",
      "Prevents clickjacking by controlling iframe embedding", .high,
      fun h _ => xfoCheck h⟩,
    ⟨"X-Content-Type-Options", "x-content-type-options",
      "Prevents MIME type sniffing", .medium,
      fun h _ => xctoCheck h⟩,
    ⟨"Referrer-Policy", "referrer-policy",
      "Controls how much referrer info is sent", .medium,
      fun h _ => referrerCheck h⟩,
    ⟨"Permissions-Policy", "permissions-policy",
      "Controls browser feature access (camera, mic, geolocation)", .medium,
      fun h _ => permissionsCheck h⟩,
    ⟨"X-XSS-Protection", "x-xss-protection",
      "Legacy XSS filter (deprecated but still checked)", .low,
      fun h _ => xssCheck h⟩,
    ⟨"Cross-Origin-Opener-Policy", "cross-origin-opener-policy",
      "Isolates browsing context from cross-origin popups", .low,
      fun h _ => coopCheck h⟩,
    ⟨"Cross-Origin-Resource-Policy", "cross-origin-resource-policy",
      "Prevents resources from being loaded cross-origin", .low,
      fun h _ => corpCheck h⟩ ]

/-- A catalog entry paired with its outcome for one page. -/
structure CheckResult where
  check : SecurityCheck
  result : CheckOutcome

/-- `CHECKS.map((check) => ({ check, result: check.check(headers, html) }))`. -/
def evalChecks (headers : Headers) (html : String) : List CheckResult :=
  CHECKS.map fun c => ⟨c, c.check headers html⟩

/-- `totalWeight`: sum of severity weights over all checks. -/
def totalWeight (rs : List CheckResult) : Nat :=
  (rs.map fun c => weight c.check.severity).sum

/-- `earnedWeight`: sum of severity weights over passing checks. -/
def earnedWeight (rs : List CheckResult) : Nat :=
  (rs.map fun c => if c.result.pass then weight c.check.severity else 0).sum

/-- `Math.round(num / den)` for a nonnegative exact rational `num / den`:
`floor(num / den + 1/2) = (2 * num + den) / (2 * den)` in natural division. -/
def mathRound (num den : Nat) : Nat :=
  (2 * num + den) / (2 * den)

/-- `totalWeight > 0 ? Math.round((earnedWeight / totalWeight) * 100) : 0`. -/
def scoreOf (rs : List CheckResult) : Nat :=
  if 0 < totalWeight rs then mathRound (earnedWeight rs * 100) (totalWeight rs) else 0

/-- Modelled from the spec: rounding to the nearest integer with ties rounded
half away from zero, for a nonnegative exact rational `num / den`.  The
quotient is `num / den` rounded down; it is bumped by one exactly when the
remainder is at least half the divisor, which on nonnegative values is
nearest-integer rounding sending the tie (remainder exactly half) upward,
i.e. away from zero. -/
def specRoundNearest (num den : Nat) : Nat :=
  num / den + (if den ≤ 2 * (num % den) then 1 else 0)

/-- `gradeFromScore`: letter grade from a numeric score. -/
def gradeFromScore (score : Int) : String :=
  if 90 ≤ score then "A"
  else if 70 ≤ score then "B"
  else if 50 ≤ score then "C"
  else "F"

/-- One crawled input record `{url, headers, content}`; each field may be
absent (`undefined`). -/
structure PageInput where
  url : Option String
  headers : Option Headers
  content : Option String

/-- One row of the aggregated results. -/
structure PageResult where
  url : String
  headers : Headers
  score : Nat
  checks : List CheckResult
  passCount : Nat
  failCount : Nat

/-- The loop body of the scanner's `results` computation for one page that
passed the url guard. -/
def processPage (url : String) (headers : Headers) (html : String) : PageResult :=
  ⟨url, headers, scoreOf (evalChecks headers html), evalChecks headers html,
    ((evalChecks headers html).filter fun c => c.result.pass).length,
    ((evalChecks headers html).filter fun c => !c.result.pass).length⟩

/-- The scanner's `results` computation: `if (!page?.url) continue` skips
records with a falsy `url` (missing or empty); missing headers default to
`{}` and missing content to `""`; the rest are processed in order. -/
def aggregate : List PageInput → List PageResult
  | [] => []
  | p :: rest =>
      if isFalsy p.url then aggregate rest
      else
        processPage (p.url.getD "") (p.headers.getD []) (p.content.getD "") :: aggregate rest

/-- `let path = r.url; try { path = new URL(r.url).pathname } catch {}`:
the display path used by the Markdown export, parameterised by the platform
URL parser (`some` the pathname on success, `none` when `new URL` throws). -/
def displayPath (parsePathname : String → Option String) (url : String) : String :=
  (parsePathname url).getD url

/-- One data row of the Markdown export table. -/
def mdRow (parsePathname : String → Option String) (r : PageResult) : String :=
  "| " ++ displayPath parsePathname r.url ++ " | " ++ toString r.score ++ " | "
    ++ gradeFromScore (r.score : Int) ++ " | " ++ toString r.passCount ++ " | "
    ++ toString r.failCount ++ " |"

/-- The header map of the spec's end-to-end example (the `\x27` escapes are
ASCII apostrophes). -/
def endToEndHeaders : Headers :=
  [ ("strict-transport-security", "max-age=31536000"),
    ("content-security-policy", "default-src \x27self\x27"),
    ("x-frame-options", "DENY"),
    ("x-content-type-options", "nosniff"),
    ("referrer-policy", "no-referrer") ]

/-- A header map whose CSP value contains `unsafe-inline`. -/
def cspUnsafeHeaders : Headers :=
  [ ("content-security-policy",
     "default-src \x27self\x27; script-src \x27unsafe-inline\x27") ]

/-! ## Helper lemmas -/

/-- `Math.round` on an exact nonnegative rational agrees with
nearest-integer rounding that sends the tie upward (equivalently, for
nonnegative values, half away from zero). -/
lemma mathRound_eq_specRound (num den : Nat) (hd : 0 < den) :
    mathRound num den = specRoundNearest num den := by
  have hmod : num % den < den := Nat.mod_lt _ hd
  have hdm : den * (num / den) + num % den = num := Nat.div_add_mod num den
  have key : 2 * num + den = 2 * (num % den) + den + 2 * den * (num / den) := by
    conv_lhs => rw [← hdm]
    ring
  unfold mathRound specRoundNearest
  rw [key, Nat.add_mul_div_left _ _ (by omega)]
  by_cases hc : den ≤ 2 * (num % den)
  · rw [if_pos hc]
    have h1 : (2 * (num % den) + den) / (2 * den) = 1 :=
      Nat.div_eq_of_lt_le (by omega) (by omega)
    omega
  · rw [if_neg hc]
    have h1 : (2 * (num % den) + den) / (2 * den) = 0 :=
      Nat.div_eq_of_lt (by omega)
    omega

lemma earnedWeight_le_totalWeight (rs : List CheckResult) :
    earnedWeight rs ≤ totalWeight rs := by
  induction rs with
  | nil => simp [earnedWeight, totalWeight]
  | cons c rest ih =>
      simp only [earnedWeight, totalWeight, List.map_cons, List.sum_cons] at ih ⊢
      by_cases h : c.result.pass <;> simp [h] <;> omega

lemma scoreOf_le_100 (rs : List CheckResult) : scoreOf rs ≤ 100 := by
  unfold scoreOf
  by_cases ht : 0 < totalWeight rs
  · rw [if_pos ht]
    have he := earnedWeight_le_totalWeight rs
    unfold mathRound
    have hle : 2 * (earnedWeight rs * 100) + totalWeight rs ≤ 201 * totalWeight rs := by
      omega
    have hmono : (2 * (earnedWeight rs * 100) + totalWeight rs) / (2 * totalWeight rs) ≤
        201 * totalWeight rs / (2 * totalWeight rs) := Nat.div_le_div_right hle
    have h100 : 201 * totalWeight rs / (2 * totalWeight rs) = 100 :=
      Nat.div_eq_of_lt_le (by omega) (by omega)
    omega
  · rw [if_neg ht]
    omega

lemma length_filter_not_add {α : Type} (l : List α) (p : α → Bool) :
    (l.filter p).length + (l.filter fun x => !p x).length = l.length := by
  induction l with
  | nil => simp
  | cons a t ih => by_cases h : p a <;> simp [List.filter_cons, h] <;> omega

lemma mem_aggregate {pages : List PageInput} {r : PageResult}
    (hr : r ∈ aggregate pages) : ∃ u h c, u ≠ "" ∧ r = processPage u h c := by
  induction pages with
  | nil => simp [aggregate] at hr
  | cons p rest ih =>
      by_cases hp : isFalsy p.url = true
      · rw [aggregate, if_pos hp] at hr
        exact ih hr
      · rw [aggregate, if_neg hp, List.mem_cons] at hr
        rcases hr with hr | hr
        · cases hu : p.url with
          | none => exact absurd (by rw [hu]; rfl) hp
          | some u =>
              refine ⟨u, p.headers.getD [], p.content.getD "", ?_, ?_⟩
              · intro he
                subst he
                exact hp (by rw [hu]; rfl)
              · rw [hr, hu]
                rfl
        · exact ih hr

lemma processPage_invariants (u : String) (h : Headers) (c : String) :
    (processPage u h c).passCount + (processPage u h c).failCount = 10 ∧
    (processPage u h c).score ≤ 100 := by
  refine ⟨?_, ?_⟩
  case refine_2 =>
    show scoreOf (evalChecks h c) ≤ 100
    exact scoreOf_le_100 _
  have hfilter := length_filter_not_add (evalChecks h c) fun x => x.result.pass
  have hlen : (evalChecks h c).length = 10 := by
    simp [evalChecks, CHECKS]
  show ((evalChecks h c).filter fun x => x.result.pass).length +
    ((evalChecks h c).filter fun x => !x.result.pass).length = 10
  omega

/-! ## Claim theorems -/

/-- Claim C1: for every list of check results, the computed score equals
`round(100 * earnedWeight / totalWeight)` with rounding to the nearest
integer and ties rounded half away from zero (the nonnegative-value reading
of `specRoundNearest`), and the score is 0 when the total weight is 0. -/
theorem scoreOf_eq_round_half_away (rs : List CheckResult) :
    scoreOf rs =
      if 0 < totalWeight rs then
        specRoundNearest (100 * earnedWeight rs) (totalWeight rs)
      else 0 := by
  unfold scoreOf
  by_cases ht : 0 < totalWeight rs
  · rw [if_pos ht, if_pos ht, Nat.mul_comm (earnedWeight rs) 100]
    exact mathRound_eq_specRound _ _ ht
  · rw [if_neg ht, if_neg ht]

/-- Claim C2: the letter grade is "A" from 90, "B" from 70, "C" from 50 and
"F" below, with the boundary values 90, 89, 70, 69, 50, 49 grading as
claimed. -/
theorem gradeFromScore_thresholds (s : Int) :
    (90 ≤ s → gradeFromScore s = "A") ∧
    (70 ≤ s → s < 90 → gradeFromScore s = "B") ∧
    (50 ≤ s → s < 70 → gradeFromScore s = "C") ∧
    (s < 50 → gradeFromScore s = "F") ∧
    gradeFromScore 90 = "A" ∧ gradeFromScore 89 = "B" ∧
    gradeFromScore 70 = "B" ∧ gradeFromScore 69 = "C" ∧
    gradeFromScore 50 = "C" ∧ gradeFromScore 49 = "F" := by
  refine ⟨?_, ?_, ?_, ?_, by decide, by decide, by decide, by decide, by decide, by decide⟩
  · intro h
    unfold gradeFromScore
    rw [if_pos h]
  · intro h1 h2
    unfold gradeFromScore
    rw [if_neg (by omega), if_pos h1]
  · intro h1 h2
    unfold gradeFromScore
    rw [if_neg (by omega), if_neg (by omega), if_pos h1]
  · intro h
    unfold gradeFromScore
    rw [if_neg (by omega), if_neg (by omega), if_neg (by omega)]

/-- Witness for C2 at the concrete score 77. -/
theorem gradeFromScore_thresholds_witness : gradeFromScore 77 = "B" :=
  (gradeFromScore_thresholds 77).2.1 (by decide) (by decide)

/-- Claim C3: every PageResult the aggregator produces has
`passCount + failCount = 10` and a score in `[0, 100]`. -/
theorem aggregate_invariants (pages : List PageInput) (r : PageResult)
    (hr : r ∈ aggregate pages) :
    r.passCount + r.failCount = 10 ∧ 0 ≤ r.score ∧ r.score ≤ 100 := by
  obtain ⟨u, h, c, _, rfl⟩ := mem_aggregate hr
  exact ⟨(processPage_invariants u h c).1, Nat.zero_le _,
    (processPage_invariants u h c).2⟩

/-- Witness for C3 on a concrete one-page input. -/
theorem aggregate_invariants_witness :
    (processPage "https://a.test/" [] "").passCount +
      (processPage "https://a.test/" [] "").failCount = 10 ∧
    0 ≤ (processPage "https://a.test/" [] "").score ∧
    (processPage "https://a.test/" [] "").score ≤ 100 :=
  aggregate_invariants [⟨some "https://a.test/", none, none⟩] _
    (by rw [show aggregate [⟨some "https://a.test/", none, none⟩] =
          [processPage "https://a.test/" [] ""] from rfl]
        exact List.mem_singleton.mpr rfl)

/-- Counterexample to claim C4 as stated: on the spec's end-to-end input the
pipeline's total weight is 185 (not 215), the earned weight is 140 (not 165)
and the score is 76 (not 77). -/
theorem endToEnd_claimed_numbers_false :
    totalWeight (evalChecks endToEndHeaders "") = 185 ∧
    ¬totalWeight (evalChecks endToEndHeaders "") = 215 ∧
    earnedWeight (evalChecks endToEndHeaders "") = 140 ∧
    ¬earnedWeight (evalChecks endToEndHeaders "") = 165 ∧
    (processPage "https://a.test/" endToEndHeaders "").score = 76 ∧
    ¬(processPage "https://a.test/" endToEndHeaders "").score = 77 := by
  refine ⟨by decide, by decide, by decide, by decide, by decide, by decide⟩

/-- Claim C4 (amended): on the end-to-end input, exactly the six claimed
checks pass and the four claimed checks fail, the earned weight is 140 of a
total weight of 185, the score is `round(140/185*100) = 76`, and the grade
is "B". -/
theorem endToEnd_pipeline :
    ((evalChecks endToEndHeaders "").map fun c => (c.check.name, c.result.pass)) =
      [ ("HTTPS", true), ("Strict-Transport-Security", true),
        ("Content-Security-Policy", true), ("X-Frame-Options", true),
        ("X-Content-Type-Options", true), ("Referrer-Policy", true),
        ("Permissions-Policy", false), ("X-XSS-Protection", false),
        ("Cross-Origin-Opener-Policy", false),
        ("Cross-Origin-Resource-Policy", false) ] ∧
    earnedWeight (evalChecks endToEndHeaders "") = 140 ∧
    totalWeight (evalChecks endToEndHeaders "") = 185 ∧
    (processPage "https://a.test/" endToEndHeaders "").passCount = 6 ∧
    (processPage "https://a.test/" endToEndHeaders "").failCount = 4 ∧
    (processPage "https://a.test/" endToEndHeaders "").score = 76 ∧
    gradeFromScore ((processPage "https://a.test/" endToEndHeaders "").score : Int) = "B" := by
  refine ⟨by decide, by decide, by decide, by decide, by decide, by decide, by decide⟩

/-- Claim C5: header lookup compares lowercased forms, returns the first
match in iteration order, returns `none` (not an error) when no key matches,
and finds `"DENY"` for `"X-Frame-Options"` in `{"x-frame-options": "DENY"}`. -/
theorem findHeader_first_match (hs : Headers) (name : String) :
    findHeader hs name =
      ((hs.find? fun kv => lowerStr kv.1 == lowerStr name).map Prod.snd) ∧
    ((∀ kv ∈ hs, lowerStr kv.1 ≠ lowerStr name) → findHeader hs name = none) ∧
    findHeader [("x-frame-options", "DENY")] "X-Frame-Options" = some "DENY" := by
  have hmain : findHeader hs name =
      ((hs.find? fun kv => lowerStr kv.1 == lowerStr name).map Prod.snd) := by
    induction hs with
    | nil => rfl
    | cons kv rest ih =>
        obtain ⟨k, v⟩ := kv
        by_cases h : lowerStr k = lowerStr name
        · simp [findHeader, List.find?_cons, h]
        · simp [findHeader, List.find?_cons, h, ih]
  refine ⟨hmain, fun hall => ?_, by decide⟩
  have hnone : hs.find? (fun kv => lowerStr kv.1 == lowerStr name) = none :=
    List.find?_eq_none.mpr fun x hx => by simpa [beq_iff_eq] using hall x hx
  rw [hmain, hnone]
  rfl

/-- Witness for C5 on a concrete non-matching map. -/
theorem findHeader_first_match_witness : findHeader [("a", "1")] "b" = none :=
  (findHeader_first_match [("a", "1")] "b").2.1 (by decide)

/-- Counterexample to claim C6 as stated: a Strict-Transport-Security header
that is present with the empty-string value makes the check fail, so the
check does not pass "whenever the header is present regardless of value". -/
theorem hsts_empty_value_fails :
    findHeader [("strict-transport-security", "")] "strict-transport-security" =
      some "" ∧
    (hstsCheck [("strict-transport-security", "")]).pass = false := by
  exact ⟨by decide, by decide⟩

/-- Claim C6 (amended): the Strict-Transport-Security check fails exactly
when the header is absent or present with the empty-string value; with any
non-empty value it passes — with an advisory detail when the parsed
`max-age` (first `max-age=<digits>` match, else 0) is below 31536000, and
with no detail otherwise, e.g. for `"max-age=63072000"`. -/
theorem hsts_spec (hs : Headers) :
    ((hstsCheck hs).pass = false ↔
      findHeader hs "strict-transport-security" = none ∨
      findHeader hs "strict-transport-security" = some "") ∧
    (∀ v, findHeader hs "strict-transport-security" = some v → v ≠ "" →
      (hstsCheck hs).pass = true ∧ (hstsCheck hs).value = some v ∧
      (hstsMaxAge v < 31536000 → (hstsCheck hs).detail =
        some ("max-age=" ++ toString (hstsMaxAge v) ++ " (recommend >= 31536000)")) ∧
      (31536000 ≤ hstsMaxAge v → (hstsCheck hs).detail = none)) ∧
    hstsCheck [("strict-transport-security", "max-age=63072000")] =
      ⟨true, some "max-age=63072000", none⟩ := by
  refine ⟨?_, ?_, by decide⟩
  · cases hv : findHeader hs "strict-transport-security" with
    | none => simp [hstsCheck, hv, isFalsy]
    | some v =>
        by_cases he : v = ""
        · subst he
          simp [hstsCheck, hv, isFalsy, String.isEmpty_iff]
        · have hne : v.isEmpty = false := by
            cases hh : v.isEmpty
            · rfl
            · exact absurd ((String.isEmpty_iff v).mp hh) he
          simp only [hstsCheck, hv, isFalsy, hne, Bool.false_eq_true, if_false,
            Option.getD_some]
          split_ifs <;> simp [he]
  · intro v hv hvne
    have hne : v.isEmpty = false := by
      cases hh : v.isEmpty
      · rfl
      · exact absurd ((String.isEmpty_iff v).mp hh) hvne
    have hred : hstsCheck hs =
        if hstsMaxAge v < 31536000 then
          ⟨true, some v,
            some ("max-age=" ++ toString (hstsMaxAge v) ++ " (recommend >= 31536000)")⟩
        else ⟨true, some v, none⟩ := by
      simp only [hstsCheck, hv, isFalsy, hne, Bool.false_eq_true, if_false,
        Option.getD_some]
    refine ⟨?_, ?_, ?_, ?_⟩
    · rw [hred]
      split_ifs <;> rfl
    · rw [hred]
      split_ifs <;> rfl
    · intro hlt
      rw [hred, if_pos hlt]
    · intro hge
      rw [hred, if_neg (by omega)]

/-- Witness for C6 on a concrete sub-year `max-age`. -/
theorem hsts_spec_witness :
    (hstsCheck [("strict-transport-security", "max-age=3600")]).pass = true ∧
    (hstsCheck [("strict-transport-security", "max-age=3600")]).detail =
      some ("max-age=" ++ toString (hstsMaxAge "max-age=3600") ++
        " (recommend >= 31536000)") := by
  have h := (hsts_spec [("strict-transport-security", "max-age=3600")]).2.1
    "max-age=3600" (by decide) (by decide)
  exact ⟨h.1, h.2.2.1 (by decide)⟩

/-- Counterexample to claim C7 as stated: a Content-Security-Policy header
that is present with the empty-string value makes the check fail, so the
check does not pass "whenever present". -/
theorem csp_empty_value_fails :
    findHeader [("content-security-policy", "")] "content-security-policy" =
      some "" ∧
    (cspCheck [("content-security-policy", "")]).pass = false := by
  exact ⟨by decide, by decide⟩

/-- Claim C7 (amended): the Content-Security-Policy check fails exactly when
the header is absent or present with the empty-string value; with any
non-empty value it passes, the reported value is the raw value when at most
80 characters and the first 80 characters followed by `"..."` when longer,
and an advisory detail is attached exactly when the raw value contains
`unsafe-inline` or `unsafe-eval`, without flipping pass. -/
theorem csp_spec (hs : Headers) :
    ((cspCheck hs).pass = false ↔
      findHeader hs "content-security-policy" = none ∨
      findHeader hs "content-security-policy" = some "") ∧
    (∀ v, findHeader hs "content-security-policy" = some v → v ≠ "" →
      (cspCheck hs).pass = true ∧
      (v.length ≤ 80 → (cspCheck hs).value = some v) ∧
      (80 < v.length →
        (cspCheck hs).value = some (String.mk (v.toList.take 80) ++ "...")) ∧
      ((cspCheck hs).detail.isSome = true ↔
        (containsSub v.toList ("unsafe-inline".toList)
          || containsSub v.toList ("unsafe-eval".toList)) = true)) := by
  constructor
  · cases hv : findHeader hs "content-security-policy" with
    | none => simp [cspCheck, hv, isFalsy]
    | some v =>
        by_cases he : v = ""
        · subst he
          simp [cspCheck, hv, isFalsy, String.isEmpty_iff]
        · have hne : v.isEmpty = false := by
            cases hh : v.isEmpty
            · rfl
            · exact absurd ((String.isEmpty_iff v).mp hh) he
          simp only [cspCheck, hv, isFalsy, hne, Bool.false_eq_true, if_false,
            Option.getD_some]
          simp [he]
  · intro v hv hvne
    have hne : v.isEmpty = false := by
      cases hh : v.isEmpty
      · rfl
      · exact absurd ((String.isEmpty_iff v).mp hh) hvne
    have hred : cspCheck hs =
        ⟨true, some (truncate80 v),
          if (containsSub v.toList ("unsafe-inline".toList)
              || containsSub v.toList ("unsafe-eval".toList)) = true then
            some "Contains unsafe-inline or unsafe-eval directives"
          else none⟩ := by
      simp only [cspCheck, hv, isFalsy, hne, Bool.false_eq_true, if_false,
        Option.getD_some]
    refine ⟨by rw [hred], ?_, ?_, ?_⟩
    · intro hle
      rw [hred]
      show some (truncate80 v) = some v
      have htake : v.toList.take 80 = v.toList := List.take_of_length_le hle
      unfold truncate80
      rw [htake, if_neg (by omega)]
      have hmk : String.mk v.toList = v := rfl
      rw [hmk]
      simp
    · intro hlt
      rw [hred]
      show some (truncate80 v) = some (String.mk (v.toList.take 80) ++ "...")
      unfold truncate80
      rw [if_pos hlt]
    · rw [hred]
      show (if (containsSub v.toList ("unsafe-inline".toList)
          || containsSub v.toList ("unsafe-eval".toList)) = true then
          some "Contains unsafe-inline or unsafe-eval directives"
        else none).isSome = true ↔ _
      by_cases hc : (containsSub v.toList ("unsafe-inline".toList)
          || containsSub v.toList ("unsafe-eval".toList)) = true
      · rw [if_pos hc]
        simpa using hc
      · rw [if_neg hc]
        simpa using hc

/-- Witness for C7 on a concrete policy containing `unsafe-inline`. -/
theorem csp_spec_witness :
    (cspCheck cspUnsafeHeaders).pass = true ∧
    (cspCheck cspUnsafeHeaders).detail.isSome = true := by
  have h := (csp_spec cspUnsafeHeaders).2
    "default-src \x27self\x27; script-src \x27unsafe-inline\x27"
    (by decide) (by decide)
  exact ⟨h.1, h.2.2.2.mpr (by decide)⟩

/-- Claim C8: the X-Content-Type-Options check fails when the header is
absent, and a present value passes exactly when its lowercased form is
`nosniff`. -/
theorem xcto_spec (hs : Headers) :
    (findHeader hs "x-content-type-options" = none → (xctoCheck hs).pass = false) ∧
    (∀ v, findHeader hs "x-content-type-options" = some v →
      ((xctoCheck hs).pass = true ↔ lowerStr v = "nosniff")) := by
  constructor
  · intro h
    simp [xctoCheck, h, isFalsy]
  · intro v hv
    by_cases he : v = ""
    · subst he
      have hfalse : (xctoCheck hs).pass = false := by
        simp [xctoCheck, hv, isFalsy, String.isEmpty_iff]
      rw [hfalse]
      constructor
      · intro h
        exact absurd h (by decide)
      · intro h
        exact absurd h (by decide)
    · have hne : v.isEmpty = false := by
        cases hh : v.isEmpty
        · rfl
        · exact absurd ((String.isEmpty_iff v).mp hh) he
      simp only [xctoCheck, hv, isFalsy, hne, Bool.false_eq_true, if_false,
        Option.getD_some]
      exact beq_iff_eq

/-- Witness for C8 on a mixed-case header name and value. -/
theorem xcto_spec_witness :
    (xctoCheck [("X-Content-Type-Options", "NoSniff")]).pass = true :=
  ((xcto_spec [("X-Content-Type-Options", "NoSniff")]).2 "NoSniff"
    (by decide)).mpr (by decide)

/-- Claim C9: the Markdown export's display path is a total function of the
url — it is the parsed pathname when the platform URL parser succeeds and
the raw url string verbatim when parsing fails (the `try`/`catch` absorbs
the failure; it is never propagated). -/
theorem displayPath_total_fallback (parse : String → Option String)
    (url : String) :
    (∀ p, parse url = some p → displayPath parse url = p) ∧
    (parse url = none → displayPath parse url = url) := by
  constructor
  · intro p hp
    simp [displayPath, hp]
  · intro h
    simp [displayPath, h]

/-- Witness for C9: a url the parser rejects falls back verbatim. -/
theorem displayPath_total_fallback_witness :
    displayPath (fun _ => none) "not a url" = "not a url" :=
  (displayPath_total_fallback (fun _ => none) "not a url").2 rfl

/-- Claim C10: the aggregator skips every record with a falsy url — missing
or the empty string — so every produced PageResult has a non-empty url and
an entry with url `""` produces no PageResult. -/
theorem aggregate_url_guard (pages : List PageInput) (p : PageInput) :
    (∀ r ∈ aggregate pages, r.url ≠ "") ∧
    (p.url = none → aggregate (p :: pages) = aggregate pages) ∧
    (p.url = some "" → aggregate (p :: pages) = aggregate pages) := by
  refine ⟨?_, ?_, ?_⟩
  · intro r hr
    obtain ⟨u, h, c, hu, rfl⟩ := mem_aggregate hr
    exact hu
  · intro h
    rw [aggregate, if_pos (by rw [h]; rfl)]
  · intro h
    rw [aggregate, if_pos (by rw [h]; rfl)]

/-- Witness for C10: a single-record input with the empty-string url yields
no results. -/
theorem aggregate_url_guard_witness :
    aggregate [⟨some "", none, none⟩] = aggregate ([] : List PageInput) :=
  (aggregate_url_guard [] ⟨some "", none, none⟩).2.2 rfl

end SpiderScan
